import Mathlib

/-!
Verification of the backend-agnostic numerical operation layer
(GeometricKernels-vectorized): shallow embedding of the numpy and
tensorflow backend primitive sets (`src/geometric_kernels/lab_extras/`)
and of the GPyTorch kernel adapter
(`src/geometric_kernels/frontends/pytorch/gpytorch.py`), with theorems
settling the specification's claims about them.
Arrays are embedded as lists of rationals (an exact idealization of the
backends' floating point values), matrices as lists of rows or columns,
and the plum/lab dispatch registry — whose implementation is not part of
this repository — is modelled from the specification.
-/

namespace GeometricKernels

/-! ### Dispatch registry (modelled from the spec, §4.1)

The registry implementation lives in the external `lab`/`plum` libraries,
not under `src/`; only registration calls (`@dispatch` decorators) appear
in the repository. We model it from the spec: a table of
(operation name, argument-type-signature) entries, where `register` fails
with `DuplicateRegistrationError` when an identical signature is already
registered for that operation. -/

/-- The registration-time error of spec §7. -/
def DuplicateRegistrationError : String := "DuplicateRegistrationError"

/-- An argument-type signature: the ordered list of argument type patterns. -/
abbrev Signature := List String

/-- The dispatch table: all registration entries made so far. -/
abbrev Registry := List (String × Signature)

/-- Modelled from the spec: `register(operation_name, argument_type_patterns,
implementation)` "associates an implementation with a signature. Fails with a
`DuplicateRegistrationError` if an identical signature is already registered
for that operation." (Implementations themselves carry no information the
claims need, so entries store only name and signature.) -/
def register (r : Registry) (op : String) (sig : Signature) :
    Except String Registry :=
  if (op, sig) ∈ r then Except.error DuplicateRegistrationError
  else Except.ok ((op, sig) :: r)

/-- Performing a sequence of registrations in order, stopping at the first
registration error — the behaviour of loading a backend module. -/
def registerAll (r : Registry) (entries : List (String × Signature)) :
    Except String Registry :=
  entries.foldlM (fun acc e => register acc e.1 e.2) r

/-- The registrations performed, in order, by loading
`src/geometric_kernels/lab_extras/numpy/extras.py`: one entry per
`@dispatch`-decorated function, with the annotated argument types.
Note `qr` is registered twice with the identical signature `[_Numeric]`
(lines 36–41 and 163–169). -/
def numpyModuleRegistrations : List (String × Signature) :=
  [ ("take_along_axis", ["_Numeric", "_Numeric", "int"]),
    ("from_numpy", ["NPNumeric", "Union[List,NPNumeric,Number]"]),
    ("trapz", ["_Numeric", "_Numeric", "_Numeric", "int"]),
    ("qr", ["_Numeric"]),
    ("norm", ["_Numeric", "Optional[Any]", "Optional[int]"]),
    ("logspace", ["_Numeric", "_Numeric", "int", "_Numeric"]),
    ("degree", ["_Numeric"]),
    ("dtype_double", ["NPRandomState"]),
    ("float_like", ["NPNumeric"]),
    ("dtype_integer", ["NPRandomState"]),
    ("get_random_state", ["NPRandomState"]),
    ("restore_random_state", ["NPRandomState", "Any"]),
    ("create_complex", ["_Numeric", "_Numeric"]),
    ("dtype_complex", ["NPNumeric"]),
    ("cumsum", ["_Numeric", "Any"]),
    ("qr", ["_Numeric"]),
    ("slogdet", ["_Numeric"]),
    ("eigvalsh", ["_Numeric"]),
    ("reciprocal_no_nan", ["NPNumeric"]),
    ("reciprocal_no_nan", ["spmatrix"]) ]

end GeometricKernels

namespace GeometricKernels

/-- C1: registering a second implementation with an identical signature for
the same operation fails with `DuplicateRegistrationError`; in particular,
loading the numpy backend module — which registers `qr` twice with the same
`_Numeric` signature — fails with that error at registration time. -/
theorem register_duplicate_raises :
    (∀ (r : Registry) (op : String) (sig : Signature),
      (op, sig) ∈ r → register r op sig = Except.error DuplicateRegistrationError)
    ∧ registerAll [] numpyModuleRegistrations
        = Except.error DuplicateRegistrationError := by
  constructor
  · intro r op sig h
    simp [register, h]
  · rfl

/-- Witness for C1 at a concrete registry: re-registering `qr` with the
`_Numeric` signature already present fails. -/
theorem register_duplicate_raises_witness :
    register [("qr", ["_Numeric"])] "qr" ["_Numeric"]
      = Except.error DuplicateRegistrationError :=
  register_duplicate_raises.1 [("qr", ["_Numeric"])] "qr" ["_Numeric"]
    (by decide)

/-! ### Random generators and state (numpy backend)

`src/geometric_kernels/lab_extras/numpy/extras.py`, lines 101–125.
A `np.random.RandomState` generator is a mutable object holding a state
snapshot (numpy: the Mersenne Twister key tuple; here an opaque
`MTState`). The drawing algorithm itself is numpy-internal and not part
of this repository, so draws are parametrized by a step function
`MTState → ℚ × MTState`. -/

/-- The opaque state snapshot returned by `RandomState.get_state()`. -/
abbrev MTState := List Nat

/-- A numpy random generator: a cell holding a state snapshot. -/
structure NPRandomState where
  state : MTState
deriving DecidableEq, Repr

/-- `np.random.RandomState()`: a freshly constructed generator (default
initialization, before `set_state`). -/
def npRandomStateNew : NPRandomState := ⟨[]⟩

/-- `gen.set_state(state)` on the value model: the generator with its state
replaced. -/
def setState (gen : NPRandomState) (s : MTState) : NPRandomState :=
  { gen with state := s }

/-- `get_random_state(key)` (numpy extras, line 110): `key.get_state()`. -/
def get_random_state (key : NPRandomState) : MTState :=
  key.state

/-- `restore_random_state(key, state)` (numpy extras, lines 123–125):
`gen = np.random.RandomState(); gen.set_state(state); return gen`.
The argument `key` is used only for dispatch and never touched. -/
def restore_random_state (key : NPRandomState) (s : MTState) : NPRandomState :=
  let gen := npRandomStateNew
  let gen := setState gen s
  gen

/-- The next `n` draws of a generator, given numpy's internal state-update
function `step` (not part of this repository): each draw reads the current
state and advances it. -/
def draws (step : MTState → ℚ × MTState) : Nat → NPRandomState → List ℚ
  | 0, _ => []
  | n + 1, g =>
      let (v, s) := step g.state
      v :: draws step n ⟨s⟩

/-- C7: capturing a generator's state with `get_random_state` and then
restoring it with `restore_random_state` yields a generator whose next `n`
draws equal the next `n` draws of the original generator, for any drawing
algorithm `step`. -/
theorem random_state_roundtrip (step : MTState → ℚ × MTState)
    (key g : NPRandomState) (n : Nat) :
    draws step n (restore_random_state key (get_random_state g))
      = draws step n g :=
  rfl

/-! For the frame claim about `restore_random_state` (C9) the mutable
generator objects are embedded with an explicit store: a generator is a
reference (index) into a store of state cells, `np.random.RandomState()`
allocates a fresh cell, and `gen.set_state(s)` writes cell `gen`. -/

/-- The store of generator cells: cell `i` is the state of generator `i`. -/
abbrev GenStore := List MTState

/-- `np.random.RandomState()` on the store model: allocates a fresh cell
(default initialization) and returns its reference with the new store. -/
def npRandomStateNewRef (σ : GenStore) : Nat × GenStore :=
  (σ.length, σ ++ [[]])

/-- `gen.set_state(s)` on the store model: writes cell `gen`. -/
def setStateRef (σ : GenStore) (gen : Nat) (s : MTState) : GenStore :=
  σ.set gen s

/-- `restore_random_state(key, state)` on the store model, following the
source line by line: allocate a fresh generator, set its state, return it;
no operation is ever applied to `key`. -/
def restore_random_state_ref (σ : GenStore) (key : Nat) (s : MTState) :
    Nat × GenStore :=
  let (gen, σ₁) := npRandomStateNewRef σ
  let σ₂ := setStateRef σ₁ gen s
  (gen, σ₂)

/-- C9: `restore_random_state` returns a fresh generator (distinct from
`key`) carrying exactly the given state, and the cell of `key` is unchanged,
so the subsequent draws of `key` are unaffected by the call. -/
theorem restore_random_state_frame (σ : GenStore) (key : Nat) (s : MTState)
    (h : key < σ.length) (step : MTState → ℚ × MTState) (n : Nat) :
    (restore_random_state_ref σ key s).1 ≠ key
    ∧ (restore_random_state_ref σ key s).2.getD key [] = σ.getD key []
    ∧ (restore_random_state_ref σ key s).2.getD
        (restore_random_state_ref σ key s).1 [] = s
    ∧ draws step n ⟨(restore_random_state_ref σ key s).2.getD key []⟩
        = draws step n ⟨σ.getD key []⟩ := by
  have hkey : key ≠ σ.length := Nat.ne_of_lt h
  have hframe : (restore_random_state_ref σ key s).2.getD key []
      = σ.getD key [] := by
    simp only [restore_random_state_ref, npRandomStateNewRef, setStateRef]
    have hlt : key < ((σ ++ [([] : MTState)]).set σ.length s).length := by
      simp [Nat.lt_succ_of_lt h]
    have hlt2 : key < (σ ++ [([] : MTState)]).length := by
      simp [Nat.lt_succ_of_lt h]
    rw [List.getD_eq_getElem _ _ hlt, List.getD_eq_getElem _ _ h]
    rw [List.getElem_set_ne (Ne.symm hkey)]
    exact List.getElem_append_left h
  refine ⟨Ne.symm hkey, hframe, ?_, by rw [hframe]⟩
  simp only [restore_random_state_ref, npRandomStateNewRef, setStateRef]
  have hlen : σ.length < ((σ ++ [([] : MTState)]).set σ.length s).length := by
    simp
  rw [List.getD_eq_getElem _ _ hlen]
  exact List.getElem_set_self _

/-- Witness for C9 at a concrete store: two generators, restoring state
`[7]` next to generator `0` leaves generator `0`'s cell untouched. -/
theorem restore_random_state_frame_witness :
    (restore_random_state_ref [[1, 2], [3]] 0 [7]).1 ≠ 0
    ∧ (restore_random_state_ref [[1, 2], [3]] 0 [7]).2.getD 0 [] = [[1, 2], [3]].getD 0 []
    ∧ (restore_random_state_ref [[1, 2], [3]] 0 [7]).2.getD
        (restore_random_state_ref [[1, 2], [3]] 0 [7]).1 [] = [7]
    ∧ draws (fun s => (0, s)) 1 ⟨(restore_random_state_ref [[1, 2], [3]] 0 [7]).2.getD 0 []⟩
        = draws (fun s => (0, s)) 1 ⟨[[1, 2], [3]].getD 0 []⟩ :=
  restore_random_state_frame [[1, 2], [3]] 0 [7] (by decide) (fun s => (0, s)) 1

/-! ### GPyTorch kernel adapter

`src/geometric_kernels/frontends/pytorch/gpytorch.py`.
Torch scalars holding the smoothness parameter `nu` are embedded as an
extended rational (`torch.isinf` detects the infinite value). The
gpytorch `Positive` constraint's softplus transform pair is external code;
since `transform (inverse_transform v) = v`, the stored `raw_nu` is
modelled as carrying the constrained value itself. -/

/-- A torch scalar that may be infinite (`torch.tensor(float("inf"))`). -/
inductive TorchScalar where
  | fin (v : ℚ)
  | inf
deriving DecidableEq, Repr

/-- `torch.isinf` on the scalar model. -/
def torchIsinf : TorchScalar → Bool
  | .inf => true
  | .fin _ => false

/-- The mapping returned by `base_kernel.init_params()`: default values for
`nu` and `lengthscale`. -/
structure InitParams where
  nu : TorchScalar
  lengthscale : ℚ
deriving DecidableEq, Repr

/-- The state of a successfully constructed `GPyTorchGeometricKernel`:
the flag `_trainable_nu` and the stored parameter/buffer `raw_nu` together
with the `lengthscale`. -/
structure GPyTorchGeometricKernel where
  trainable_nu : Bool
  raw_nu : TorchScalar
  lengthscale : ℚ
deriving DecidableEq, Repr

/-- `GPyTorchGeometricKernel.__init__` (gpytorch.py, lines 58–97):
resolve `nu` and `lengthscale` against `base_kernel.init_params()` when not
given, then raise
`ValueError("Cannot have trainable nu parameter with infinite value")`
if `self._trainable_nu and torch.isinf(nu)`; otherwise store the
parameters (trainable path: `raw_nu` parameter with `Positive` constraint
set through the `nu` setter; non-trainable path: `raw_nu` buffer). -/
def gpytorchGeometricKernelInit (default_params : InitParams)
    (nu : Option TorchScalar) (lengthscale : Option ℚ)
    (trainable_nu : Bool) : Except String GPyTorchGeometricKernel :=
  let nu := nu.getD default_params.nu
  let lengthscale := lengthscale.getD default_params.lengthscale
  if trainable_nu && torchIsinf nu then
    Except.error "Cannot have trainable nu parameter with infinite value"
  else if trainable_nu then
    Except.ok { trainable_nu := true, raw_nu := nu, lengthscale := lengthscale }
  else
    Except.ok { trainable_nu := false, raw_nu := nu, lengthscale := lengthscale }

/-- C4: constructing the adapter with `trainable_nu = True` and `nu = inf`
fails with the configuration `ValueError` during construction — no kernel
object is ever produced, so the failure precedes any evaluation. -/
theorem gpytorch_trainable_inf_nu_rejected (default_params : InitParams)
    (lengthscale : Option ℚ) :
    gpytorchGeometricKernelInit default_params (some TorchScalar.inf)
        lengthscale true
      = Except.error "Cannot have trainable nu parameter with infinite value"
    ∧ ∀ k : GPyTorchGeometricKernel,
        gpytorchGeometricKernelInit default_params (some TorchScalar.inf)
          lengthscale true ≠ Except.ok k := by
  refine ⟨rfl, fun k h => ?_⟩
  simp [gpytorchGeometricKernelInit, torchIsinf] at h

/-! ### `set_value` (tensorflow backend)

`src/geometric_kernels/lab_extras/tensorflow/extras.py`, lines 82–89:
`a = tf.where(tf.range(len(a)) == index, value, a); return a`.
Rank-1 tensors are lists of rationals; `tf.where` with a scalar `value`
builds a new tensor whose entry `i` is `value` where the condition holds
and `a[i]` elsewhere. The rebinding of the local name `a` does not touch
the caller's tensor, which `set_value_call` makes explicit by returning
the (untouched) argument alongside the result. -/

/-- `tf.where(tf.range(len(a)) == index, value, a)` for a rank-1 tensor
`a`, a scalar `value` and a python `int` index. -/
def set_value (a : List ℚ) (index : ℤ) (value : ℚ) : List ℚ :=
  (List.range a.length).map fun (i : Nat) =>
    if (i : ℤ) = index then value else a.getD i 0

/-- A call to `set_value` as the caller sees it: the returned tensor
together with the caller's array after the call. The body only evaluates
`tf.where` (which allocates a new tensor) and rebinds a local name, so the
caller's array is returned as it was passed. -/
def set_value_call (a : List ℚ) (index : ℤ) (value : ℚ) : List ℚ × List ℚ :=
  (set_value a index value, a)

/-- Entry `j` of a mapped range, for `j` in range. -/
theorem getD_map_range (f : Nat → ℚ) (n j : Nat) (h : j < n) :
    ((List.range n).map f).getD j 0 = f j := by
  have hlen : j < ((List.range n).map f).length := by simpa using h
  rw [List.getD_eq_getElem _ _ hlen]
  simp

/-- C5: `set_value(a, i, v)` leaves the original array unchanged and
returns a new array of the same length whose entry at index `i` is `v`
and whose every other entry equals the corresponding entry of `a`. -/
theorem set_value_spec (a : List ℚ) (index : ℤ) (value : ℚ)
    (h0 : 0 ≤ index) (h1 : index.toNat < a.length) :
    (set_value_call a index value).2 = a
    ∧ (set_value a index value).length = a.length
    ∧ (set_value a index value).getD index.toNat 0 = value
    ∧ ∀ j : Nat, j < a.length → (j : ℤ) ≠ index →
        (set_value a index value).getD j 0 = a.getD j 0 := by
  refine ⟨rfl, by simp [set_value], ?_, ?_⟩
  · rw [set_value, getD_map_range _ _ _ h1]
    simp [Int.toNat_of_nonneg h0]
  · intro j hj hne
    rw [set_value, getD_map_range _ _ _ hj]
    simp [hne]

/-- Witness for C5: `set_value [5, 6, 7] 1 9` keeps the original intact,
sets entry `1` to `9` and keeps entry `0`. -/
theorem set_value_spec_witness :
    (set_value_call [5, 6, 7] 1 9).2 = [5, 6, 7]
    ∧ (set_value ([5, 6, 7] : List ℚ) 1 9).length = ([5, 6, 7] : List ℚ).length
    ∧ (set_value [5, 6, 7] 1 9).getD (1 : ℤ).toNat 0 = 9
    ∧ (set_value [5, 6, 7] 1 9).getD 0 0 = ([5, 6, 7] : List ℚ).getD 0 0 :=
  ⟨(set_value_spec [5, 6, 7] 1 9 (by decide) (by decide)).1,
   (set_value_spec [5, 6, 7] 1 9 (by decide) (by decide)).2.1,
   (set_value_spec [5, 6, 7] 1 9 (by decide) (by decide)).2.2.1,
   (set_value_spec [5, 6, 7] 1 9 (by decide) (by decide)).2.2.2 0
     (by decide) (by decide)⟩

/-! ### `reciprocal_no_nan` (numpy backend, dense and sparse; tensorflow)

`src/geometric_kernels/lab_extras/numpy/extras.py`, lines 189–204, and
`src/geometric_kernels/lab_extras/tensorflow/extras.py`, lines 209–214.
Dense arrays are lists of rationals; the numpy primitives `np.equal`,
`np.where` (with a scalar first branch) and `np.reciprocal` are embedded
elementwise. A scipy sparse matrix is embedded as its shape, its stored
index pattern and its stored data array. -/

/-- `np.equal(x, 0.0)` elementwise. -/
def np_equal_zero (x : List ℚ) : List Bool :=
  x.map fun v => v == 0

/-- `np.where(cond, t, e)` with a scalar `t` and array `e`, elementwise. -/
def np_where_scalar (cond : List Bool) (t : ℚ) (e : List ℚ) : List ℚ :=
  (cond.zip e).map fun p => if p.1 then t else p.2

/-- `np.reciprocal(x)` elementwise (exact rational reciprocal). -/
def np_reciprocal (x : List ℚ) : List ℚ :=
  x.map fun v => v⁻¹

/-- `safe_x = np.where(x_is_zero, 1.0, x)` (numpy extras, line 195): the
array fed to `np.reciprocal`, with every zero entry replaced by `1.0`. -/
def safe_x (x : List ℚ) : List ℚ :=
  np_where_scalar (np_equal_zero x) 1 x

/-- `reciprocal_no_nan` on a dense numpy array (numpy extras, lines
189–196): `np.where(x_is_zero, 0.0, np.reciprocal(safe_x))`. -/
def reciprocal_no_nan (x : List ℚ) : List ℚ :=
  np_where_scalar (np_equal_zero x) 0 (np_reciprocal (safe_x x))

/-- A scipy sparse matrix: shape, stored-entry index pattern, and the
stored data array (one value per stored index, duplicates already merged
as `_deduped_data` guarantees). -/
structure SpMatrix where
  shape : Nat × Nat
  indices : List (Nat × Nat)
  data : List ℚ
deriving DecidableEq, Repr

/-- `x._deduped_data().copy()`: the stored data array. -/
def sp_deduped_data (m : SpMatrix) : List ℚ := m.data

/-- `x._with_data(d, copy=True)`: same shape and stored index pattern,
data replaced by `d`. -/
def sp_with_data (m : SpMatrix) (d : List ℚ) : SpMatrix :=
  { m with data := d }

/-- `reciprocal_no_nan` on a scipy sparse matrix (numpy extras, lines
199–204): apply the dense version to the stored data only. -/
def reciprocal_no_nan_sp (m : SpMatrix) : SpMatrix :=
  sp_with_data m (reciprocal_no_nan (sp_deduped_data m))

/-- `tf.math.reciprocal_no_nan(x)` (tensorflow extras, lines 209–214):
the tensorflow library routine computes `1/x` elementwise with `0` at
zero entries, per its documented semantics. -/
def reciprocal_no_nan_tf (x : List ℚ) : List ℚ :=
  x.map fun v => if v = 0 then 0 else v⁻¹

/-- Unrolling `safe_x`: zero entries become `1`, others are kept. -/
theorem safe_x_eq_map (x : List ℚ) :
    safe_x x = x.map fun w => if w = 0 then 1 else w := by
  induction x with
  | nil => rfl
  | cons a t ih =>
      simp only [safe_x, np_where_scalar, np_equal_zero, List.map_cons,
        List.zip_cons_cons] at ih ⊢
      rw [ih]
      by_cases ha : a = 0 <;> simp [ha]

/-- The dense numpy `reciprocal_no_nan` computes, entry by entry, `0` at
zeros and the exact reciprocal elsewhere. -/
theorem reciprocal_no_nan_eq_map (x : List ℚ) :
    reciprocal_no_nan x = x.map fun v => if v = 0 then 0 else v⁻¹ := by
  induction x with
  | nil => rfl
  | cons a t ih =>
      simp only [reciprocal_no_nan, np_where_scalar, np_equal_zero,
        np_reciprocal, safe_x, List.map_cons, List.zip_cons_cons] at ih ⊢
      rw [ih]
      by_cases ha : a = 0 <;> simp [ha]

/-- C6: `reciprocal_no_nan` returns `0` at every zero entry and `1/x` at
every nonzero entry (numpy dense and tensorflow agree entrywise), and on a
sparse input it preserves the shape and the stored index pattern,
transforming only the stored data array. -/
theorem reciprocal_no_nan_spec (x : List ℚ) (j : Nat) (h : j < x.length)
    (m : SpMatrix) :
    (reciprocal_no_nan x).length = x.length
    ∧ (reciprocal_no_nan x).getD j 0
        = (if x.getD j 0 = 0 then 0 else (x.getD j 0)⁻¹)
    ∧ reciprocal_no_nan_tf x = reciprocal_no_nan x
    ∧ (reciprocal_no_nan_sp m).shape = m.shape
    ∧ (reciprocal_no_nan_sp m).indices = m.indices
    ∧ (reciprocal_no_nan_sp m).data = reciprocal_no_nan m.data := by
  refine ⟨by simp [reciprocal_no_nan_eq_map], ?_, by rw [reciprocal_no_nan_eq_map]; rfl,
    rfl, rfl, rfl⟩
  have hlen : j < ((x.map fun v => if v = 0 then 0 else v⁻¹)).length := by
    simpa using h
  rw [reciprocal_no_nan_eq_map, List.getD_eq_getElem _ _ hlen,
    List.getD_eq_getElem _ _ h]
  simp

/-- Witness for C6 at `x = [0, 2, -3]`, `j = 0`, and a concrete sparse
matrix. -/
theorem reciprocal_no_nan_spec_witness :
    (reciprocal_no_nan [0, 2, -3]).length = ([0, 2, -3] : List ℚ).length
    ∧ (reciprocal_no_nan [0, 2, -3]).getD 0 0
        = (if ([0, 2, -3] : List ℚ).getD 0 0 = 0 then 0
           else (([0, 2, -3] : List ℚ).getD 0 0)⁻¹)
    ∧ reciprocal_no_nan_tf [0, 2, -3] = reciprocal_no_nan [0, 2, -3]
    ∧ (reciprocal_no_nan_sp ⟨(2, 2), [(0, 1)], [4]⟩).shape = (⟨(2, 2), [(0, 1)], [4]⟩ : SpMatrix).shape
    ∧ (reciprocal_no_nan_sp ⟨(2, 2), [(0, 1)], [4]⟩).indices = (⟨(2, 2), [(0, 1)], [4]⟩ : SpMatrix).indices
    ∧ (reciprocal_no_nan_sp ⟨(2, 2), [(0, 1)], [4]⟩).data
        = reciprocal_no_nan (⟨(2, 2), [(0, 1)], [4]⟩ : SpMatrix).data :=
  reciprocal_no_nan_spec [0, 2, -3] 0 (by decide) ⟨(2, 2), [(0, 1)], [4]⟩

/-- Every entry of `safe_x x` is nonzero: zero entries of `x` were replaced
by `1`, nonzero entries kept. -/
theorem safe_x_mem_ne_zero (x : List ℚ) (v : ℚ) (hv : v ∈ safe_x x) :
    v ≠ 0 := by
  rw [safe_x_eq_map] at hv
  obtain ⟨w, _, hw⟩ := List.mem_map.1 hv
  by_cases hwz : w = 0
  · rw [hwz] at hw
    simp at hw
    simp [← hw]
  · simp [hwz] at hw
    exact hw ▸ hwz

/-- C10: in the dense numpy `reciprocal_no_nan`, `np.reciprocal` is only
ever applied to `safe_x`, every entry of which is nonzero — every zero
entry of `x` was first replaced by the placeholder `1.0` — so the
reciprocal is never evaluated at a zero entry. -/
theorem reciprocal_never_evaluated_at_zero (x : List ℚ) (v : ℚ)
    (hv : v ∈ safe_x x) (j : Nat) (hj : j < x.length) :
    v ≠ 0
    ∧ (x.getD j 0 = 0 → (safe_x x).getD j 0 = 1)
    ∧ reciprocal_no_nan x
        = np_where_scalar (np_equal_zero x) 0 (np_reciprocal (safe_x x)) := by
  refine ⟨safe_x_mem_ne_zero x v hv, ?_, rfl⟩
  intro hz
  have hlen : j < ((x.map fun w => if w = 0 then 1 else w)).length := by
    simpa using hj
  rw [safe_x_eq_map, List.getD_eq_getElem _ _ hlen]
  rw [List.getD_eq_getElem _ _ hj] at hz
  simp [hz]

/-- Witness for C10 at `x = [0, 5]`: `safe_x [0, 5] = [1, 5]`, whose entry
`1` is nonzero, and the zero entry at position `0` became `1`. -/
theorem reciprocal_never_evaluated_at_zero_witness :
    (1 : ℚ) ≠ 0
    ∧ (([0, 5] : List ℚ).getD 0 0 = 0 → (safe_x [0, 5]).getD 0 0 = 1)
    ∧ reciprocal_no_nan [0, 5]
        = np_where_scalar (np_equal_zero [0, 5]) 0 (np_reciprocal (safe_x [0, 5])) :=
  reciprocal_never_evaluated_at_zero [0, 5] 1 (by decide) 0 (by decide)

/-! ### `float_like` (numpy and tensorflow backends)

`src/geometric_kernels/lab_extras/numpy/extras.py`, lines 80–90, and
`src/geometric_kernels/lab_extras/tensorflow/extras.py`, lines 100–110.
Each backend's dtype universe is an enumeration; an array carries its
dtype alongside its data. -/

/-- The numpy dtypes relevant to the dtype queries. -/
inductive NPDtype where
  | float16
  | float32
  | float64
  | int32
  | int64
  | complex64
  | complex128
deriving DecidableEq, Repr

/-- `np.issubdtype(d, np.floating)`. -/
def np_issubdtype_floating : NPDtype → Bool
  | .float16 | .float32 | .float64 => true
  | _ => false

/-- A numpy array: its dtype and its data. -/
structure NPNumeric where
  dtype : NPDtype
  data : List ℚ
deriving DecidableEq, Repr

/-- `float_like(reference)` in the numpy backend (numpy extras, lines
80–90): the reference's dtype if `np.issubdtype(reference.dtype,
np.floating)`, else `np.float64`. -/
def float_like_np (reference : NPNumeric) : NPDtype :=
  if np_issubdtype_floating reference.dtype then reference.dtype
  else NPDtype.float64

/-- The tensorflow dtypes relevant to the dtype queries. -/
inductive TFDtype where
  | float16
  | float32
  | float64
  | int32
  | int64
  | complex64
  | complex128
deriving DecidableEq, Repr

/-- The tensorflow dtype property `is_floating`. -/
def tf_is_floating : TFDtype → Bool
  | .float16 | .float32 | .float64 => true
  | _ => false

/-- A tensorflow tensor: its dtype and its data. -/
structure TFNumeric where
  dtype : TFDtype
  data : List ℚ
deriving DecidableEq, Repr

/-- `float_like(reference)` in the tensorflow backend (tensorflow extras,
lines 100–110): the reference's dtype if `reference.dtype.is_floating`,
else `tf.float64`. -/
def float_like_tf (reference : TFNumeric) : TFDtype :=
  if tf_is_floating reference.dtype then reference.dtype
  else TFDtype.float64

/-- C8: in both backends, `float_like` returns the reference's own dtype
when it is a floating-point dtype and the canonical double dtype
(`float64`) otherwise. -/
theorem float_like_spec (rn : NPNumeric) (rt : TFNumeric) :
    (np_issubdtype_floating rn.dtype = true → float_like_np rn = rn.dtype)
    ∧ (np_issubdtype_floating rn.dtype = false →
        float_like_np rn = NPDtype.float64)
    ∧ (tf_is_floating rt.dtype = true → float_like_tf rt = rt.dtype)
    ∧ (tf_is_floating rt.dtype = false →
        float_like_tf rt = TFDtype.float64) := by
  refine ⟨fun h => ?_, fun h => ?_, fun h => ?_, fun h => ?_⟩ <;>
    simp [float_like_np, float_like_tf, h]

/-- Witness for C8: an `int64` numpy reference maps to `float64`, a
`float32` tensorflow reference keeps its own dtype. -/
theorem float_like_spec_witness :
    float_like_np ⟨NPDtype.int64, []⟩ = NPDtype.float64
    ∧ float_like_tf ⟨TFDtype.float32, []⟩ = TFDtype.float32 :=
  ⟨(float_like_spec ⟨NPDtype.int64, []⟩ ⟨TFDtype.float32, []⟩).2.1 (by decide),
   (float_like_spec ⟨NPDtype.int64, []⟩ ⟨TFDtype.float32, []⟩).2.2.1 (by decide)⟩

/-! ### `eigenpairs` (tensorflow backend)

`src/geometric_kernels/lab_extras/tensorflow/extras.py`, lines 73–79:
`l, u = tf.linalg.eigh(L); return l[:k], u[:, :k]`, documented as
"Obtain the k highest eigenpairs of a symmetric PSD matrix L".
`tf.linalg.eigh` is external library code; its contract (also spec §4.2,
"eigenvalues ... in ascending order") is modelled for diagonal matrices,
where the eigendecomposition is exact and executable: the eigenvalues are
the diagonal entries sorted ascending and the eigenvectors the matching
standard basis columns. Matrices of eigenvectors are lists of columns, so
`u[:, :k]` is `List.take k`. -/

/-- The `i`-th standard basis column of length `n`. -/
def basisCol (n i : Nat) : List ℚ :=
  (List.range n).map fun j => if j = i then 1 else 0

/-- Modelled from the spec: `tf.linalg.eigh` on the diagonal matrix with
diagonal `d` — eigenvalues in ascending order, eigenvectors as the
matching standard basis columns. -/
def eighDiag (d : List ℚ) : List ℚ × List (List ℚ) :=
  let sorted := ((List.range d.length).zip d).insertionSort
    fun p q => p.2 ≤ q.2
  (sorted.map Prod.snd, sorted.map fun p => basisCol d.length p.1)

/-- `eigenpairs(L, k)` (tensorflow extras, lines 73–79) on a diagonal
matrix: `l, u = tf.linalg.eigh(L)` then `l[:k], u[:, :k]`. -/
def eigenpairs (d : List ℚ) (k : Nat) : List ℚ × List (List ℚ) :=
  let lu := eighDiag d
  (lu.1.take k, lu.2.take k)

/-- The `k` largest eigenvalues of the diagonal matrix with diagonal `d`,
as the claim demands: diagonal sorted descending, first `k`. -/
def kLargestEigvals (d : List ℚ) (k : Nat) : List ℚ :=
  (d.insertionSort fun a b => b ≤ a).take k

/-- C2 as stated is false on the code: for the symmetric PSD diagonal
matrix `diag(1, 2)` and `k = 1`, `eigenpairs` returns the eigenvalue list
`[1]` — the ascending eigendecomposition sliced with `[:k]` keeps the `k`
smallest eigenvalues — while the `k = 1` largest eigenvalue is `2`, as the
code's own docstring ("k highest eigenpairs") requires. -/
theorem eigenpairs_returns_smallest_not_largest :
    (eigenpairs [1, 2] 1).1 = [1]
    ∧ kLargestEigvals [1, 2] 1 = [2]
    ∧ (eigenpairs [1, 2] 1).1 ≠ kLargestEigvals [1, 2] 1 := by
  refine ⟨?_, ?_, ?_⟩ <;> decide

/-! ### `take_along_axis` (numpy vs tensorflow backends)

`src/geometric_kernels/lab_extras/numpy/extras.py`, lines 12–17:
`np.take_along_axis(a, index, axis=axis)` — per-position gather: the
output has the shape of `index` (matching `a` off the gather axis) and
`out[i][j] = a[i][index[i][j]]` for `axis=1`.
`src/geometric_kernels/lab_extras/tensorflow/extras.py`, lines 12–17:
`tf.gather(a, B.flatten(index), axis=axis)` — flattens the index to rank
1 and gathers entire slices: for `axis=1`, `out[i][j] = a[i][flat[j]]`.
Rank-2 arrays are lists of rows. -/

/-- `np.take_along_axis(a, index, axis=1)` for rank-2 `a` and `index`
with the same number of rows: row `i` of the output selects, within row
`i` of `a`, the positions listed in row `i` of `index`. -/
def np_take_along_axis_axis1 (a : List (List ℚ)) (index : List (List Nat)) :
    List (List ℚ) :=
  (a.zip index).map fun p => p.2.map fun i => p.1.getD i 0

/-- `B.flatten(index)`: reshape to rank 1, row-major. -/
def lab_flatten (index : List (List Nat)) : List Nat :=
  index.flatten

/-- `tf.gather(a, ids, axis=1)`: gather whole columns `ids` of `a`. -/
def tf_gather_axis1 (a : List (List ℚ)) (ids : List Nat) : List (List ℚ) :=
  a.map fun row => ids.map fun i => row.getD i 0

/-- The tensorflow `take_along_axis` for `axis=1`:
`tf.gather(a, B.flatten(index), axis=1)`. -/
def tf_take_along_axis_axis1 (a : List (List ℚ)) (index : List (List Nat)) :
    List (List ℚ) :=
  tf_gather_axis1 a (lab_flatten index)

/-- `np.take_along_axis(a, index, axis=0)` for rank-1 `a` and `index`:
`out[j] = a[index[j]]`. -/
def np_take_along_axis_1d (a : List ℚ) (index : List Nat) : List ℚ :=
  index.map fun i => a.getD i 0

/-- `B.flatten` on a rank-1 array: the identity reshape. -/
def lab_flatten_1d (index : List Nat) : List Nat :=
  index

/-- `tf.gather(a, ids, axis=0)` on a rank-1 tensor: `out[j] = a[ids[j]]`. -/
def tf_gather_1d (a : List ℚ) (ids : List Nat) : List ℚ :=
  ids.map fun i => a.getD i 0

/-- The tensorflow `take_along_axis` on rank-1 inputs:
`tf.gather(a, B.flatten(index), axis=0)`. -/
def tf_take_along_axis_1d (a : List ℚ) (index : List Nat) : List ℚ :=
  tf_gather_1d a (lab_flatten_1d index)

/-- C3 as stated is false on the code: for `a = [[1,2],[3,4]]`,
`index = [[0],[1]]` and `axis = 1` — both valid for numpy's gather — the
numpy backend returns the 2×1 array `[[1],[4]]` while the tensorflow
backend flattens the index and gathers whole columns, returning the 2×2
array `[[1,2],[3,4]]`: different shapes and values. -/
theorem take_along_axis_backends_differ :
    np_take_along_axis_axis1 [[1, 2], [3, 4]] [[0], [1]] = [[1], [4]]
    ∧ tf_take_along_axis_axis1 [[1, 2], [3, 4]] [[0], [1]] = [[1, 2], [3, 4]]
    ∧ np_take_along_axis_axis1 [[1, 2], [3, 4]] [[0], [1]]
        ≠ tf_take_along_axis_axis1 [[1, 2], [3, 4]] [[0], [1]] := by
  refine ⟨?_, ?_, ?_⟩ <;> decide

/-- C3 amended: the numpy and tensorflow `take_along_axis` agree — same
shape and same values, each output position holding the element of `a`
selected by the corresponding index — on rank-1 arrays gathered along
axis 0, where flattening the index is the identity; for higher-rank index
arrays the two backends differ. -/
theorem take_along_axis_backends_agree_rank1 (a : List ℚ)
    (index : List Nat) :
    np_take_along_axis_1d a index = tf_take_along_axis_1d a index
    ∧ (np_take_along_axis_1d a index).length = index.length
    ∧ ∀ j : Nat, j < index.length →
        (np_take_along_axis_1d a index).getD j 0
          = a.getD (index.getD j 0) 0 := by
  refine ⟨rfl, by simp [np_take_along_axis_1d], ?_⟩
  intro j hj
  have hlen : j < (np_take_along_axis_1d a index).length := by
    simpa [np_take_along_axis_1d] using hj
  rw [List.getD_eq_getElem _ _ hlen, List.getD_eq_getElem _ _ hj]
  simp [np_take_along_axis_1d]

/-- Witness for the amended C3 at `a = [10, 20, 30]`,
`index = [2, 0, 2]`, output position `0`. -/
theorem take_along_axis_backends_agree_rank1_witness :
    np_take_along_axis_1d [10, 20, 30] [2, 0, 2]
      = tf_take_along_axis_1d [10, 20, 30] [2, 0, 2]
    ∧ (np_take_along_axis_1d [10, 20, 30] [2, 0, 2]).length
        = ([2, 0, 2] : List Nat).length
    ∧ (np_take_along_axis_1d [10, 20, 30] [2, 0, 2]).getD 0 0
        = ([10, 20, 30] : List ℚ).getD (([2, 0, 2] : List Nat).getD 0 0) 0 :=
  ⟨(take_along_axis_backends_agree_rank1 [10, 20, 30] [2, 0, 2]).1,
   (take_along_axis_backends_agree_rank1 [10, 20, 30] [2, 0, 2]).2.1,
   (take_along_axis_backends_agree_rank1 [10, 20, 30] [2, 0, 2]).2.2 0
     (by decide)⟩

end GeometricKernels
